import Mathlib

/-!
Shallow embedding of `src/services/llm/deepseek_inference.py` (pixdex).

The script makes a linear sequence of external-library calls (torch device
probe, Hugging Face loading, image decode, generation).  We model each
external call's outcome in an environment record `Env`: a call either
succeeds (`Except.ok`) or raises a Python exception carrying a message
(`Except.error msg`).  Execution is modelled as a pure function that
accumulates the trace of external calls (`Event`), the lines printed to
standard error and to standard output, and the final value, mirroring the
script's control flow (`try`/`except` becomes matching on `Except`).
-/

namespace Pixdex

/-- The torch dtype selected for the model weights. -/
inductive DType where
  | float16
  | float32
deriving DecidableEq, Repr

/-- One external-library call performed by the script, recorded in trace
order. `modelLoad` carries the dtype passed to `from_pretrained`, and
`processCall` carries the prompt text handed to the processor. -/
inductive Event where
  | deviceProbe
  | configLoad
  | processorLoad
  | tokenizerLoad
  | modelLoad (dtype : DType)
  | modelToDevice
  | genConfigLoad
  | imageDecode
  | promptBuild
  | processCall (prompt : String)
  | generate
  | decodeCall
  | printResponse
deriving DecidableEq, Repr

/-- Environment of one process invocation: device availability, the set of
existing file-system paths, and the outcome of every fallible external
call (an `Except.error msg` models the call raising an exception whose
`str` is `msg`).  `decodeResult` carries the decoded response string on
success. -/
structure Env where
  mpsAvailable : Bool
  cudaAvailable : Bool
  files : List String
  configResult : Except String Unit
  processorResult : Except String Unit
  tokenizerResult : Except String Unit
  modelResult : Except String Unit
  genConfigResult : Except String Unit
  imageOpenResult : Except String Unit
  processInputsResult : Except String Unit
  generateResult : Except String Unit
  decodeResult : Except String String
deriving Repr

/-- Observable effects of a (partial) run: external-call trace, lines
printed to standard error, lines printed to standard output. -/
structure Streams where
  events : List Event
  stderrLines : List String
  stdoutLines : List String
deriving DecidableEq, Repr

/-- Concatenation of effects of two sequential program fragments. -/
def Streams.append (a b : Streams) : Streams :=
  ⟨a.events ++ b.events, a.stderrLines ++ b.stderrLines, a.stdoutLines ++ b.stdoutLines⟩

/-- The prompts handed to the processor during a run. -/
def Streams.promptsFed (s : Streams) : List String :=
  s.events.filterMap fun e =>
    match e with
    | Event.processCall q => some q
    | _ => none

/-- `setup_gpu`: probe MPS, then CUDA, else fall back to CPU; print the
choice to standard error and return the device string. -/
def setup_gpu (env : Env) : Streams × String :=
  let device :=
    if env.mpsAvailable then "mps"
    else if env.cudaAvailable then "cuda"
    else "cpu"
  (⟨[Event.deviceProbe], ["Using device: " ++ device], []⟩, device)

/-- The dtype expression in `load_model`:
`torch.float16 if device in ['cuda', 'mps'] else torch.float32`. -/
def dtypeFor (device : String) : DType :=
  if device = "cuda" ∨ device = "mps" then DType.float16 else DType.float32

/-- `load_model`: load config, processor, tokenizer, model (with the
device-dependent dtype), move the model to the device, load the
generation config.  Any exception is reported as
`Error loading model: ...` on standard error and re-raised
(returned as `Except.error`). -/
def load_model (env : Env) (model_name : String) (device : String) :
    Streams × Except String Unit :=
  let e1 := ["Loading model configuration from " ++ model_name ++ "..."]
  match env.configResult with
  | .error m =>
      (⟨[Event.configLoad], e1 ++ ["Error loading model: " ++ m], []⟩, .error m)
  | .ok _ =>
    let e2 := e1 ++ ["Loading processor and tokenizer from " ++ model_name ++ "..."]
    match env.processorResult with
    | .error m =>
        (⟨[Event.configLoad, Event.processorLoad],
          e2 ++ ["Error loading model: " ++ m], []⟩, .error m)
    | .ok _ =>
      match env.tokenizerResult with
      | .error m =>
          (⟨[Event.configLoad, Event.processorLoad, Event.tokenizerLoad],
            e2 ++ ["Error loading model: " ++ m], []⟩, .error m)
      | .ok _ =>
        let e3 := e2 ++ ["Loading model from " ++ model_name ++ "..."]
        let dt := dtypeFor device
        match env.modelResult with
        | .error m =>
            (⟨[Event.configLoad, Event.processorLoad, Event.tokenizerLoad,
               Event.modelLoad dt],
              e3 ++ ["Error loading model: " ++ m], []⟩, .error m)
        | .ok _ =>
          match env.genConfigResult with
          | .error m =>
              (⟨[Event.configLoad, Event.processorLoad, Event.tokenizerLoad,
                 Event.modelLoad dt, Event.modelToDevice, Event.genConfigLoad],
                e3 ++ ["Error loading model: " ++ m], []⟩, .error m)
          | .ok _ =>
              (⟨[Event.configLoad, Event.processorLoad, Event.tokenizerLoad,
                 Event.modelLoad dt, Event.modelToDevice, Event.genConfigLoad],
                e3, []⟩, .ok ())

/-- The fixed prompt constructed in `analyze_image` (a Python triple-quoted
string; continuation lines keep their eight-space indentation). -/
def promptText : String :=
  "Analyze this wildlife photo and provide the following information in a structured format:\n        1. SUBJECTS: List all animals/wildlife subjects visible in the image\n        2. COLORS: List dominant colors in the image\n        3. PATTERNS: Describe any notable patterns or textures\n        4. SEASON: If apparent from the environment or context. Indian seasons.\n        5. ENVIRONMENT: Detailed description of the habitat/setting\n        6. TAGS: Relevant keywords for searching (max 10)\n        7. DESCRIPTION: A detailed, professional description of the photo\n        Format each section clearly with headings."

/-- The body of `analyze_image`'s outer `try`: validate the path, probe the
device, load the model, decode the image, build the prompt, run the
processor and `generate`, decode the output and print it to standard
output.  `Except.error` is an exception propagating out of the body. -/
def analyze_image_body (env : Env) (image_path : String) (model_name : String) :
    Streams × Except String String :=
  if env.files.contains image_path then
    let s1 := (setup_gpu env).1
    let device := (setup_gpu env).2
    let lm := load_model env model_name device
    match lm.2 with
    | .error m => (s1.append lm.1, .error m)
    | .ok _ =>
      let s2 := s1.append lm.1
      match env.imageOpenResult with
      | .error m =>
          (s2.append ⟨[Event.imageDecode], ["Error loading image: " ++ m], []⟩,
           .error m)
      | .ok _ =>
        let s3 := s2.append ⟨[Event.imageDecode, Event.promptBuild], [], []⟩
        match env.processInputsResult with
        | .error m =>
            (s3.append ⟨[Event.processCall promptText],
              ["Error during inference: " ++ m], []⟩, .error m)
        | .ok _ =>
          match env.generateResult with
          | .error m =>
              (s3.append ⟨[Event.processCall promptText, Event.generate],
                ["Error during inference: " ++ m], []⟩, .error m)
          | .ok _ =>
            match env.decodeResult with
            | .error m =>
                (s3.append ⟨[Event.processCall promptText, Event.generate,
                  Event.decodeCall], ["Error during inference: " ++ m], []⟩,
                 .error m)
            | .ok response =>
                (s3.append ⟨[Event.processCall promptText, Event.generate,
                  Event.decodeCall, Event.printResponse], [], [response]⟩,
                 .ok response)
  else
    (⟨[], [], []⟩, .error ("Image file not found: " ++ image_path))

/-- `analyze_image`: run the body under the outer exception handler, which
reports any exception as `Error in analyze_image: ...` on standard error
and returns `None`. -/
def analyze_image (env : Env) (image_path : String) (model_name : String) :
    Streams × Option String :=
  match analyze_image_body env image_path model_name with
  | (s, .ok r) => (s, some r)
  | (s, .error m) =>
      (s.append ⟨[], ["Error in analyze_image: " ++ m], []⟩, none)

/-- The default model identifier. -/
def defaultModelName : String := "deepseek-ai/deepseek-vl-1.3b-chat"

/-- The usage line printed when no image path is given. -/
def usageMsg : String :=
  "Usage: python deepseek_inference.py <image_path> [model_name]"

/-- The model name `main` passes to `analyze_image`:
`sys.argv[2] if len(sys.argv) > 2 else "deepseek-ai/deepseek-vl-1.3b-chat"`. -/
def modelArg (argv : List String) : String :=
  if argv.length > 2 then argv.getD 2 "" else defaultModelName

/-- `main`: check the argument count, run `analyze_image`, and exit 1 when
it returns `None` (its own `except` handler cannot fire, since
`analyze_image` catches every exception).  The returned `Nat` is the
process exit status. -/
def main (env : Env) (argv : List String) : Streams × Nat :=
  if argv.length < 2 then
    (⟨[], [usageMsg], []⟩, 1)
  else
    let image_path := argv.getD 1 ""
    match analyze_image env image_path (modelArg argv) with
    | (s, none) => (s, 1)
    | (s, some _) => (s, 0)

/-- The complete trace of external calls of a fully successful run, for a
model dtype `dt`. -/
def fullEvents (dt : DType) : List Event :=
  [Event.deviceProbe, Event.configLoad, Event.processorLoad, Event.tokenizerLoad,
   Event.modelLoad dt, Event.modelToDevice, Event.genConfigLoad, Event.imageDecode,
   Event.promptBuild, Event.processCall promptText, Event.generate,
   Event.decodeCall, Event.printResponse]

/-- Every run of `analyze_image`'s body, wherever it stops, produces a
prefix of the full successful trace: the script never reorders, repeats or
retries an external call. -/
lemma body_events_initial (env : Env) (p m : String) :
    (analyze_image_body env p m).1.events <+: fullEvents (dtypeFor (setup_gpu env).2) := by
  unfold analyze_image_body load_model
  repeat' split
  all_goals
    simp [Streams.append, setup_gpu, fullEvents, List.cons_prefix_cons, List.nil_prefix]

/-- The body either succeeds with the response as the single standard-output
line, or fails with an exception and an empty standard output. -/
lemma body_stdout (env : Env) (p m : String) :
    (∃ r, (analyze_image_body env p m).2 = Except.ok r ∧
      (analyze_image_body env p m).1.stdoutLines = [r])
    ∨ ((∃ e, (analyze_image_body env p m).2 = Except.error e) ∧
      (analyze_image_body env p m).1.stdoutLines = []) := by
  unfold analyze_image_body load_model
  repeat' split
  all_goals simp [Streams.append, setup_gpu]

/-- `analyze_image` adds no external call beyond its body's. -/
lemma analyze_image_events (env : Env) (p m : String) :
    (analyze_image env p m).1.events = (analyze_image_body env p m).1.events := by
  unfold analyze_image
  rcases h : analyze_image_body env p m with ⟨s, res⟩
  cases res <;> simp [Streams.append]

/-- `analyze_image` prints nothing to standard output beyond its body's. -/
lemma analyze_image_stdout (env : Env) (p m : String) :
    (analyze_image env p m).1.stdoutLines = (analyze_image_body env p m).1.stdoutLines := by
  unfold analyze_image
  rcases h : analyze_image_body env p m with ⟨s, res⟩
  cases res <;> simp [Streams.append]

/-- The outer handler of `analyze_image` converts the body's outcome:
an exception becomes `none`, a response becomes `some`. -/
lemma analyze_image_result (env : Env) (p m : String) :
    (analyze_image env p m).2
      = (match (analyze_image_body env p m).2 with
         | Except.ok r => some r
         | Except.error _ => none) := by
  unfold analyze_image
  rcases h : analyze_image_body env p m with ⟨s, res⟩
  cases res <;> simp

/-- An environment where every external call succeeds (MPS available). -/
def okEnv : Env :=
  ⟨true, false, ["img.png"], Except.ok (), Except.ok (), Except.ok (),
   Except.ok (), Except.ok (), Except.ok (), Except.ok (), Except.ok (),
   Except.ok "RESPONSE"⟩

/-- An environment (CUDA, no MPS) where the configuration load raises. -/
def cfgFailEnv : Env :=
  ⟨false, true, ["img.png"], Except.error "cfg boom", Except.ok (), Except.ok (),
   Except.ok (), Except.ok (), Except.ok (), Except.ok (), Except.ok (),
   Except.ok "RESPONSE"⟩

/-- An environment with no accelerator and every external call succeeding. -/
def cpuEnv : Env :=
  ⟨false, false, ["img.png"], Except.ok (), Except.ok (), Except.ok (),
   Except.ok (), Except.ok (), Except.ok (), Except.ok (), Except.ok (),
   Except.ok "RESPONSE"⟩

/-- C1: with fewer than two command-line arguments, `main` prints the usage
message to standard error, exits with status 1, and performs no external
call at all (no device probe, model load, or inference). -/
theorem spec_c1 (env : Env) (argv : List String) (h : argv.length < 2) :
    (main env argv).1.events = []
    ∧ (main env argv).1.stderrLines = [usageMsg]
    ∧ (main env argv).1.stdoutLines = []
    ∧ (main env argv).2 = 1 := by
  simp [main, h]

/-- Witness for C1 at a concrete invocation carrying only the script name. -/
theorem spec_c1_witness :
    (main okEnv ["deepseek_inference.py"]).1.events = []
    ∧ (main okEnv ["deepseek_inference.py"]).1.stderrLines = [usageMsg]
    ∧ (main okEnv ["deepseek_inference.py"]).1.stdoutLines = []
    ∧ (main okEnv ["deepseek_inference.py"]).2 = 1 :=
  spec_c1 okEnv ["deepseek_inference.py"] (by decide)

/-- C2: when the image path does not exist, the body raises
`FileNotFoundError ("Image file not found: " ++ path)`, the outer handler
catches it and reports it on standard error, `analyze_image` returns
`none`, and the process exits with status 1. -/
theorem spec_c2 (env : Env) (argv : List String) (h2 : 2 ≤ argv.length)
    (hnf : env.files.contains (argv.getD 1 "") = false) :
    (analyze_image_body env (argv.getD 1 "") (modelArg argv)).2
      = Except.error ("Image file not found: " ++ argv.getD 1 "")
    ∧ (analyze_image env (argv.getD 1 "") (modelArg argv)).2 = none
    ∧ ("Error in analyze_image: " ++ ("Image file not found: " ++ argv.getD 1 ""))
        ∈ (main env argv).1.stderrLines
    ∧ (main env argv).2 = 1 := by
  have hlt : ¬ argv.length < 2 := by omega
  simp only [List.getD] at hnf
  have hmem : argv[1]?.getD "" ∉ env.files := by simpa using hnf
  refine ⟨?_, ?_, ?_, ?_⟩ <;>
    simp [main, analyze_image, analyze_image_body, Streams.append, hmem, hlt,
      List.getD]

/-- Witness for C2 with a path absent from the file system. -/
theorem spec_c2_witness :
    (analyze_image_body okEnv "missing.png" defaultModelName).2
      = Except.error ("Image file not found: " ++ "missing.png")
    ∧ (analyze_image okEnv "missing.png" defaultModelName).2 = none
    ∧ ("Error in analyze_image: " ++ ("Image file not found: " ++ "missing.png"))
        ∈ (main okEnv ["prog", "missing.png"]).1.stderrLines
    ∧ (main okEnv ["prog", "missing.png"]).2 = 1 :=
  spec_c2 okEnv ["prog", "missing.png"] (by decide) (by decide)

/-- C3: every exception escaping the body of `analyze_image` — missing
file, any loading failure, image-decode failure, inference failure — is
caught by the outer handler, reported on standard error, and turned into
exit status 1; none escapes `main` uncaught. -/
theorem spec_c3 (env : Env) (argv : List String) (h2 : 2 ≤ argv.length)
    (m : String)
    (hfail : (analyze_image_body env (argv.getD 1 "") (modelArg argv)).2
      = Except.error m) :
    (main env argv).2 = 1
    ∧ ("Error in analyze_image: " ++ m) ∈ (main env argv).1.stderrLines := by
  have hlt : ¬ argv.length < 2 := by omega
  simp only [List.getD, List.get?_eq_getElem?] at hfail
  rcases hb : analyze_image_body env (argv[1]?.getD "") (modelArg argv) with ⟨s, res⟩
  rw [hb] at hfail
  simp only at hfail
  subst hfail
  simp [main, analyze_image, hb, Streams.append, hlt, List.getD]

/-- Witness for C3 at a configuration-load failure. -/
theorem spec_c3_witness :
    (main cfgFailEnv ["prog", "img.png"]).2 = 1
    ∧ ("Error in analyze_image: " ++ "cfg boom")
        ∈ (main cfgFailEnv ["prog", "img.png"]).1.stderrLines :=
  spec_c3 cfgFailEnv ["prog", "img.png"] (by decide) "cfg boom" rfl

/-- With enough arguments, `main`'s effects are exactly those of
`analyze_image`, and its exit status is 1 precisely when `analyze_image`
returned `None`. -/
lemma main_unfold (env : Env) (argv : List String) (h : ¬ argv.length < 2) :
    (main env argv).1 = (analyze_image env (argv.getD 1 "") (modelArg argv)).1
    ∧ (main env argv).2
      = (if (analyze_image env (argv.getD 1 "") (modelArg argv)).2 = none
         then 1 else 0) := by
  rcases ha : analyze_image env (argv.getD 1 "") (modelArg argv) with ⟨s, o⟩
  simp only [List.getD, List.get?_eq_getElem?] at ha
  cases o <;> simp [main, h, ha, List.getD]

/-- C4: with an existing image and every external call succeeding,
`analyze_image` returns the decoded response, that response is the single
standard-output line, and the exit status is 0. -/
theorem spec_c4 (env : Env) (argv : List String) (h2 : 2 ≤ argv.length)
    (hex : env.files.contains (argv.getD 1 "") = true)
    (hc : env.configResult = Except.ok ())
    (hp : env.processorResult = Except.ok ())
    (ht : env.tokenizerResult = Except.ok ())
    (hm : env.modelResult = Except.ok ())
    (hg : env.genConfigResult = Except.ok ())
    (hi : env.imageOpenResult = Except.ok ())
    (hpr : env.processInputsResult = Except.ok ())
    (hgen : env.generateResult = Except.ok ())
    (r : String) (hd : env.decodeResult = Except.ok r) :
    (analyze_image env (argv.getD 1 "") (modelArg argv)).2 = some r
    ∧ (main env argv).1.stdoutLines = [r]
    ∧ (main env argv).2 = 0 := by
  have hlt : ¬ argv.length < 2 := by omega
  simp only [List.getD] at hex
  have hmem : argv[1]?.getD "" ∈ env.files := by simpa using hex
  refine ⟨?_, ?_, ?_⟩ <;>
    simp [main, analyze_image, analyze_image_body, load_model, setup_gpu,
      Streams.append, hmem, hlt, hc, hp, ht, hm, hg, hi, hpr, hgen, hd,
      List.getD]

/-- Witness for C4: a fully successful concrete run. -/
theorem spec_c4_witness :
    (analyze_image okEnv (["prog", "img.png"].getD 1 "")
        (modelArg ["prog", "img.png"])).2 = some "RESPONSE"
    ∧ (main okEnv ["prog", "img.png"]).1.stdoutLines = ["RESPONSE"]
    ∧ (main okEnv ["prog", "img.png"]).2 = 0 :=
  spec_c4 okEnv ["prog", "img.png"] (by decide) (by decide) rfl rfl rfl rfl
    rfl rfl rfl rfl "RESPONSE" rfl

/-- C5: for every invocation, standard output is either empty (failure,
exit 1) or consists of the single analysis-response line (success, exit
0); every diagnostic line goes to standard error. -/
theorem spec_c5 (env : Env) (argv : List String) :
    (∃ r, (main env argv).1.stdoutLines = [r]
      ∧ (analyze_image env (argv.getD 1 "") (modelArg argv)).2 = some r
      ∧ (main env argv).2 = 0)
    ∨ ((main env argv).1.stdoutLines = [] ∧ (main env argv).2 = 1) := by
  by_cases hlt : argv.length < 2
  · right
    simp [main, hlt]
  · obtain ⟨h1, h2⟩ := main_unfold env argv hlt
    rcases body_stdout env (argv.getD 1 "") (modelArg argv) with
      ⟨r, hok, hout⟩ | ⟨⟨e, herr⟩, hout⟩
    · left
      refine ⟨r, ?_, ?_, ?_⟩
      · rw [h1, analyze_image_stdout, hout]
      · rw [analyze_image_result, hok]
      · rw [h2, analyze_image_result, hok]
        simp
    · right
      constructor
      · rw [h1, analyze_image_stdout, hout]
      · rw [h2, analyze_image_result, herr]
        simp

/-- The event kinds named by the specification's pipeline summary
(device probe, config load, processor/tokenizer load, model load, image
decode, prompt construction, generate, decode, print). -/
def Event.listedKind : Event → Bool
  | Event.deviceProbe => true
  | Event.configLoad => true
  | Event.processorLoad => true
  | Event.tokenizerLoad => true
  | Event.modelLoad _ => true
  | Event.imageDecode => true
  | Event.promptBuild => true
  | Event.generate => true
  | Event.decodeCall => true
  | Event.printResponse => true
  | _ => false

/-- C6: on a fully successful run, the external calls named by the
specification happen exactly in the order device probe, config load,
processor load, tokenizer load, model load, image decode, prompt
construction, generate, decode, print.  (Calls the claim does not name —
moving the model to the device, loading the generation config, invoking
the processor on the inputs — are filtered out of the trace.) -/
theorem spec_c6 (env : Env) (p mn r : String)
    (hex : env.files.contains p = true)
    (hc : env.configResult = Except.ok ())
    (hp : env.processorResult = Except.ok ())
    (ht : env.tokenizerResult = Except.ok ())
    (hm : env.modelResult = Except.ok ())
    (hg : env.genConfigResult = Except.ok ())
    (hi : env.imageOpenResult = Except.ok ())
    (hpr : env.processInputsResult = Except.ok ())
    (hgen : env.generateResult = Except.ok ())
    (hd : env.decodeResult = Except.ok r) :
    (analyze_image env p mn).1.events.filter Event.listedKind
      = [Event.deviceProbe, Event.configLoad, Event.processorLoad,
         Event.tokenizerLoad, Event.modelLoad (dtypeFor (setup_gpu env).2),
         Event.imageDecode, Event.promptBuild, Event.generate,
         Event.decodeCall, Event.printResponse] := by
  have hmem : p ∈ env.files := by simpa using hex
  simp [analyze_image, analyze_image_body, load_model, setup_gpu,
    Streams.append, hmem, hc, hp, ht, hm, hg, hi, hpr, hgen, hd,
    Event.listedKind, List.filter]

/-- Witness for C6: the successful concrete run on the CPU environment. -/
theorem spec_c6_witness :
    (analyze_image cpuEnv "img.png" defaultModelName).1.events.filter
        Event.listedKind
      = [Event.deviceProbe, Event.configLoad, Event.processorLoad,
         Event.tokenizerLoad,
         Event.modelLoad (dtypeFor (setup_gpu cpuEnv).2),
         Event.imageDecode, Event.promptBuild, Event.generate,
         Event.decodeCall, Event.printResponse] :=
  spec_c6 cpuEnv "img.png" defaultModelName "RESPONSE" (by decide) rfl rfl
    rfl rfl rfl rfl rfl rfl rfl

/-- Does the event record a `model.generate` call? -/
def Event.isGenerate : Event → Bool
  | Event.generate => true
  | _ => false

/-- Does the event record the configuration load? -/
def Event.isConfigLoad : Event → Bool
  | Event.configLoad => true
  | _ => false

/-- Does the event record the processor load? -/
def Event.isProcessorLoad : Event → Bool
  | Event.processorLoad => true
  | _ => false

/-- Does the event record the tokenizer load? -/
def Event.isTokenizerLoad : Event → Bool
  | Event.tokenizerLoad => true
  | _ => false

/-- Does the event record the model-weights load? -/
def Event.isModelLoad : Event → Bool
  | Event.modelLoad _ => true
  | _ => false

/-- C7: in every invocation of `main`, `model.generate` is called at most
once and each loading step (config, processor, tokenizer, model) is
attempted at most once — there is no retry on any path. -/
theorem spec_c7 (env : Env) (argv : List String) :
    (main env argv).1.events.countP Event.isGenerate ≤ 1
    ∧ (main env argv).1.events.countP Event.isConfigLoad ≤ 1
    ∧ (main env argv).1.events.countP Event.isProcessorLoad ≤ 1
    ∧ (main env argv).1.events.countP Event.isTokenizerLoad ≤ 1
    ∧ (main env argv).1.events.countP Event.isModelLoad ≤ 1 := by
  by_cases hlt : argv.length < 2
  · simp [main, hlt]
  · obtain ⟨h1, _⟩ := main_unfold env argv hlt
    have hsub :=
      (body_events_initial env (argv.getD 1 "") (modelArg argv)).sublist
    rw [h1, analyze_image_events]
    refine ⟨?_, ?_, ?_, ?_, ?_⟩ <;>
      exact le_trans (hsub.countP_le _)
        (by simp [fullEvents, List.countP_cons, List.countP_nil,
          Event.isGenerate, Event.isConfigLoad, Event.isProcessorLoad,
          Event.isTokenizerLoad, Event.isModelLoad])

/-- Every prompt handed to the processor during any run is the fixed
constant `promptText`. -/
lemma promptsFed_fixed (env : Env) (p m q : String)
    (hq : q ∈ (analyze_image env p m).1.promptsFed) : q = promptText := by
  rw [Streams.promptsFed, analyze_image_events, List.mem_filterMap] at hq
  obtain ⟨e, he, hfe⟩ := hq
  have he2 : e ∈ fullEvents (dtypeFor (setup_gpu env).2) :=
    (body_events_initial env p m).sublist.subset he
  simp only [fullEvents, List.mem_cons, List.not_mem_nil, or_false] at he2
  rcases he2 with rfl | rfl | rfl | rfl | rfl | rfl | rfl | rfl | rfl | rfl
    | rfl | rfl | rfl <;> simp_all

/-- C8: the prompt fed to the model is one fixed constant string — any
prompt observed in any invocation, whatever the image path, model name or
environment, equals `promptText`, so any two invocations feed the same
prompt. -/
theorem spec_c8 (env₁ : Env) (p₁ m₁ : String) (env₂ : Env) (p₂ m₂ : String)
    (q₁ q₂ : String)
    (h₁ : q₁ ∈ (analyze_image env₁ p₁ m₁).1.promptsFed)
    (h₂ : q₂ ∈ (analyze_image env₂ p₂ m₂).1.promptsFed) :
    q₁ = promptText ∧ q₂ = promptText ∧ q₁ = q₂ := by
  have e₁ := promptsFed_fixed env₁ p₁ m₁ q₁ h₁
  have e₂ := promptsFed_fixed env₂ p₂ m₂ q₂ h₂
  exact ⟨e₁, e₂, e₁.trans e₂.symm⟩

set_option maxRecDepth 8192 in
/-- Witness for C8: the prompts observed in two distinct concrete
invocations (different device, image path and model name) coincide. -/
theorem spec_c8_witness :
    ((analyze_image okEnv "img.png" "model-a").1.promptsFed).getD 0 "A"
      = ((analyze_image cpuEnv "img.png" "model-b").1.promptsFed).getD 0 "B" :=
  (spec_c8 okEnv "img.png" "model-a" cpuEnv "img.png" "model-b"
    (((analyze_image okEnv "img.png" "model-a").1.promptsFed).getD 0 "A")
    (((analyze_image cpuEnv "img.png" "model-b").1.promptsFed).getD 0 "B")
    (by decide) (by decide)).2.2

/-- C9: `setup_gpu` returns exactly one of "mps", "cuda", "cpu", preferring
MPS, then CUDA, then CPU; and the device fixes the model dtype passed to
`from_pretrained`: float16 for "cuda" or "mps", float32 otherwise —
in particular, the dtype recorded at the model-load call is always
`dtypeFor` of the device `load_model` was given. -/
theorem spec_c9 (env : Env) :
    ((setup_gpu env).2 = "mps" ∨ (setup_gpu env).2 = "cuda"
      ∨ (setup_gpu env).2 = "cpu")
    ∧ (env.mpsAvailable = true → (setup_gpu env).2 = "mps")
    ∧ (env.mpsAvailable = false → env.cudaAvailable = true →
        (setup_gpu env).2 = "cuda")
    ∧ (env.mpsAvailable = false → env.cudaAvailable = false →
        (setup_gpu env).2 = "cpu")
    ∧ dtypeFor "cuda" = DType.float16
    ∧ dtypeFor "mps" = DType.float16
    ∧ dtypeFor "cpu" = DType.float32
    ∧ (∀ mn d dt, Event.modelLoad dt ∈ (load_model env mn d).1.events →
        dt = dtypeFor d) := by
  refine ⟨?_, ?_, ?_, ?_, by decide, by decide, by decide, ?_⟩
  · cases hm : env.mpsAvailable <;> cases hcu : env.cudaAvailable <;>
      simp [setup_gpu, hm, hcu]
  · intro hm
    simp [setup_gpu, hm]
  · intro hm hcu
    simp [setup_gpu, hm, hcu]
  · intro hm hcu
    simp [setup_gpu, hm, hcu]
  · intro mn d dt hmem
    unfold load_model at hmem
    repeat' split at hmem
    all_goals simp_all

/-- Witness for C9: concrete devices and the dtype recorded at a concrete
CPU model load. -/
theorem spec_c9_witness :
    (setup_gpu okEnv).2 = "mps"
    ∧ (setup_gpu cpuEnv).2 = "cpu"
    ∧ dtypeFor "cpu" = DType.float32
    ∧ DType.float32 = dtypeFor "cpu" :=
  ⟨(spec_c9 okEnv).2.1 rfl,
   (spec_c9 cpuEnv).2.2.2.1 rfl rfl,
   (spec_c9 okEnv).2.2.2.2.2.2.1,
   (spec_c9 cpuEnv).2.2.2.2.2.2.2 defaultModelName "cpu" DType.float32
     (by decide)⟩

/-- C10: `analyze_image` propagates no exception: its outcome is always
`some` response (the body succeeded) or `none` (the body's exception was
caught), so `main`'s own handler around the call is dead and the exit
status is decided solely by the `None` test. -/
theorem spec_c10 (env : Env) (argv : List String) (h2 : 2 ≤ argv.length) :
    ((∃ r, (analyze_image env (argv.getD 1 "") (modelArg argv)).2 = some r
        ∧ (analyze_image_body env (argv.getD 1 "") (modelArg argv)).2
            = Except.ok r)
      ∨ ((analyze_image env (argv.getD 1 "") (modelArg argv)).2 = none
        ∧ ∃ e, (analyze_image_body env (argv.getD 1 "") (modelArg argv)).2
            = Except.error e))
    ∧ (main env argv).2
      = (if (analyze_image env (argv.getD 1 "") (modelArg argv)).2 = none
         then 1 else 0) := by
  have hlt : ¬ argv.length < 2 := by omega
  refine ⟨?_, (main_unfold env argv hlt).2⟩
  rcases hres : (analyze_image_body env (argv.getD 1 "") (modelArg argv)).2 with
    m | r
  · right
    rw [analyze_image_result, hres]
    exact ⟨rfl, m, rfl⟩
  · left
    rw [analyze_image_result, hres]
    exact ⟨r, rfl, rfl⟩

/-- Witness for C10 at a concrete successful invocation. -/
theorem spec_c10_witness :
    ((∃ r, (analyze_image okEnv "img.png" (modelArg ["prog", "img.png"])).2
        = some r
      ∧ (analyze_image_body okEnv "img.png" (modelArg ["prog", "img.png"])).2
          = Except.ok r)
      ∨ ((analyze_image okEnv "img.png" (modelArg ["prog", "img.png"])).2 = none
        ∧ ∃ e,
          (analyze_image_body okEnv "img.png" (modelArg ["prog", "img.png"])).2
            = Except.error e))
    ∧ (main okEnv ["prog", "img.png"]).2
      = (if (analyze_image okEnv "img.png" (modelArg ["prog", "img.png"])).2
            = none then 1 else 0) :=
  spec_c10 okEnv ["prog", "img.png"] (by decide)

end Pixdex
